import Mathlib

/-!
Shallow embedding of `jira-data-download-and-analysis.ipynb` and proofs about
its pagination loops, request client, field projection, epic backfill,
color translation, aggregation and board-issue assembly.
-/

namespace JiraSpec

/-! ## Paginated collection fetcher (jira_get_issues / jira_get_all_projects / jira_get_boards)

The source loop (cell with `jira_get_issues`):

    block_size = 100; start_position = 0; has_next = True
    while has_next:
        params = {startAt: start_position, maxResults: block_size}
        response = jira_auth_get_connect(...)
        issues_in_block = json.loads(response.text)['issues']
        all_issues.extend(issues_in_block)
        if len(issues_in_block) == 0: has_next = False
        start_position += block_size

`paginate page N fuel start acc reqs` runs that loop over an abstract server
`page : offset -> records`, counting the requests issued.  `fuel` bounds the
number of iterations so the function is total; `none` means the fuel ran out
before the loop terminated. -/

def paginate {α : Type} (page : Nat → List α) (N : Nat) :
    Nat → Nat → List α → Nat → Option (List α × Nat)
  | 0, _, _, _ => none
  | fuel+1, start, acc, reqs =>
    let blk := page start
    if blk.isEmpty then some (acc ++ blk, reqs + 1)
    else paginate page N fuel (start + N) (acc ++ blk) (reqs + 1)

/-- A server holding `R` records: the request at offset `k` returns
`min N (max 0 (R - k))` records (Nat subtraction gives the `max 0`). -/
def serverPage (R N k : Nat) : List Unit := List.replicate (min N (R - k)) ()

theorem paginate_cont {α : Type} (page : Nat → List α) (N fuel start : Nat)
    (acc : List α) (reqs : Nat) (h : page start ≠ []) :
    paginate page N (fuel+1) start acc reqs =
      paginate page N fuel (start + N) (acc ++ page start) (reqs + 1) := by
  simp only [paginate]
  rw [if_neg]
  simpa using h

theorem paginate_stop {α : Type} (page : Nat → List α) (N fuel start : Nat)
    (acc : List α) (reqs : Nat) (h : page start = []) :
    paginate page N (fuel+1) start acc reqs = some (acc, reqs + 1) := by
  simp only [paginate, h]
  simp

/-- Running the loop against `serverPage R N` from any offset: it terminates
(with enough fuel), accumulates the remaining `R - start` records, and issues
`ceil((R - start)/N) + 1` further requests. -/
theorem paginate_serverPage (R N : Nat) (hN : 0 < N) :
    ∀ (fuel start : Nat) (acc : List Unit) (reqs : Nat),
      (R - start + N - 1) / N + 1 ≤ fuel →
      paginate (serverPage R N) N fuel start acc reqs =
        some (acc ++ List.replicate (R - start) (),
              reqs + ((R - start + N - 1) / N + 1)) := by
  intro fuel
  induction fuel with
  | zero => intro start acc reqs h; exact absurd h (Nat.not_succ_le_zero _)
  | succ fuel ih =>
    intro start acc reqs h
    by_cases hle : R ≤ start
    · have h0 : R - start = 0 := Nat.sub_eq_zero_of_le hle
      have hpage : serverPage R N start = [] := by
        simp [serverPage, h0]
      rw [paginate_stop _ _ _ _ _ _ hpage, h0]
      have hdiv : (N - 1) / N = 0 := Nat.div_eq_of_lt (by omega)
      simp [hdiv]
    · push_neg at hle
      have hrpos : 0 < R - start := by omega
      have hpage : serverPage R N start = List.replicate (min N (R - start)) () := rfl
      have hne : serverPage R N start ≠ [] := by
        rw [hpage]
        intro hcon
        have := congrArg List.length hcon
        simp at this
        omega
      rw [paginate_cont _ _ _ _ _ _ hne, hpage]
      have hsub : R - (start + N) = R - start - N := by omega
      have key : (R - start + N - 1) / N = (R - start - N + N - 1) / N + 1 := by
        have h1 : R - start + N - 1 = (R - start - 1) + N := by omega
        rw [h1, Nat.add_div_right _ hN]
        by_cases hrN : R - start ≤ N
        · have e1 : R - start - N + N - 1 = N - 1 := by omega
          rw [e1, Nat.div_eq_of_lt (by omega), Nat.div_eq_of_lt (by omega)]
        · have e2 : R - start - N + N - 1 = R - start - 1 := by omega
          rw [e2]
      rw [ih (start + N) _ (reqs + 1) (by rw [hsub]; omega)]
      rw [hsub]
      congr 1
      rw [Prod.mk.injEq]
      constructor
      · rw [List.append_assoc]
        congr 1
        rw [← List.replicate_add]
        congr 1
        omega
      · rw [key]
        omega

/-- `R ≤ ceil(R/N) * N`: the offset of the final request is at or past the
last record, so the final page is empty. -/
theorem le_ceil_mul (R N : Nat) (hN : 0 < N) : R ≤ ((R + N - 1) / N) * N := by
  by_cases hR : R = 0
  · simp [hR]
  · have h1 : R + N - 1 = (R - 1) + N := by omega
    rw [h1, Nat.add_div_right _ hN]
    have h2 := Nat.div_add_mod (R - 1) N
    have h3 : (R - 1) % N < N := Nat.mod_lt _ hN
    have h4 : Nat.succ ((R - 1) / N) * N = N * ((R - 1) / N) + N := by
      rw [Nat.succ_mul, Nat.mul_comm]
    rw [h4]
    generalize hq : N * ((R - 1) / N) = t at h2
    generalize hb : (R - 1) % N = b at h2 h3
    omega

/-- C1 counterexample: with the code's page size 100 and a server holding 50
records, the fetcher issues 2 requests (a page of 50, then an empty page),
not `floor(50/100) + 1 = 1` as the claim states. -/
theorem c1_counterexample :
    paginate (serverPage 50 100) 100 5 0 [] 0 = some (List.replicate 50 (), 2) ∧
    50 / 100 + 1 ≠ 2 := by
  constructor
  · decide
  · decide

/-- C1 (amended): for page size `N > 0` and a server holding `R` records
(`min N (R - k)` records at offset `k`), the paginated fetch returns exactly
`R` records, issues exactly `ceil(R/N) + 1 = (R + N - 1)/N + 1` requests
(`floor(R/N) + 1` only when `N` divides `R`), and the final request — the one
at offset `ceil(R/N) * N` — returns zero elements. -/
theorem c1_pagination_requests_ceil (R N : Nat) (hN : 0 < N) :
    paginate (serverPage R N) N ((R + N - 1) / N + 2) 0 [] 0 =
      some (List.replicate R (), (R + N - 1) / N + 1) ∧
    serverPage R N (((R + N - 1) / N) * N) = [] := by
  constructor
  · have hrun := paginate_serverPage R N hN ((R + N - 1) / N + 2) 0 [] 0
      (by simp only [Nat.sub_zero]; omega)
    simpa using hrun
  · simp [serverPage, Nat.sub_eq_zero_of_le (le_ceil_mul R N hN)]

theorem c1_pagination_requests_ceil_witness :
    paginate (serverPage 250 100) 100 5 0 [] 0 = some (List.replicate 250 (), 4) ∧
    serverPage 250 100 300 = [] :=
  c1_pagination_requests_ceil 250 100 (by decide)

/-- C8: when the record count is an exact multiple `m * N` of the page size,
the fetcher still issues `m + 1` requests — one beyond the last full page —
and, in general, a nonempty page (in particular one with fewer than `N` but
more than zero elements) never terminates the loop: the loop always continues
to the next offset. -/
theorem c8_exact_multiple_extra_request {α : Type} (m N : Nat) (hN : 0 < N)
    (page : Nat → List α) (fuel start : Nat) (acc : List α) (reqs : Nat)
    (hne : page start ≠ []) :
    paginate (serverPage (m * N) N) N (m + 2) 0 [] 0 =
      some (List.replicate (m * N) (), m + 1) ∧
    paginate page N (fuel + 1) start acc reqs =
      paginate page N fuel (start + N) (acc ++ page start) (reqs + 1) := by
  have hc : (m * N + N - 1) / N = m := by
    have h1 : m * N + N - 1 = N * m + (N - 1) := by
      rw [Nat.mul_comm]; omega
    rw [h1, Nat.mul_add_div hN, Nat.div_eq_of_lt (by omega), Nat.add_zero]
  constructor
  · have hrun := paginate_serverPage (m * N) N hN ((m * N + N - 1) / N + 2) 0 [] 0
      (by simp only [Nat.sub_zero]; omega)
    simp only [Nat.sub_zero] at hrun
    rw [hc] at hrun
    simpa using hrun
  · exact paginate_cont page N fuel start acc reqs hne

theorem c8_exact_multiple_extra_request_witness :
    paginate (serverPage 200 100) 100 4 0 [] 0 = some (List.replicate 200 (), 3) ∧
    paginate (fun _ => [0]) 100 3 0 [] 0 = paginate (fun _ => [0]) 100 2 100 [0] 1 :=
  c8_exact_multiple_extra_request 2 100 (by decide) (fun _ => [0]) 2 0 [] 0 (by decide)

/-! ## Authenticated request client (jira_auth_get_connect)

The source builds `url = server + url_path` and `auth_string = user + ":" + apikey`
BEFORE the `try:` block; a missing configuration value (`os.environ.get`
returning `None`) makes those concatenations raise `TypeError`, which escapes
the function.  Inside the `try:`, `requests.get` runs and
`response.raise_for_status()` raises `requests.exceptions.HTTPError` on a
4xx/5xx status.  The first handler catches `urllib.error.HTTPError` — a
different class — so every exception raised inside the `try:` lands in
`except Exception` and is RETURNED as a value. -/

/-- Python exception kinds that matter to this embedding. -/
inductive PyErr where
  | typeError
  | httpError
  | otherError
  | attributeError
  | keyError
  | valueError
deriving DecidableEq, Repr

structure JiraConfig where
  user : Option String
  apikey : Option String
  server : Option String
deriving DecidableEq, Repr

/-- What `requests.get` does for one request: a response with a status code
and body text, or a raised transport exception. -/
inductive TransportOutcome where
  | success (status : Nat) (text : String)
  | exn
deriving DecidableEq, Repr

/-- Observable result of `jira_auth_get_connect`: a returned response object,
a returned (captured) exception value, or an exception escaping the function. -/
inductive ConnectResult where
  | resp (status : Nat) (text : String)
  | errValue (e : PyErr)
  | raised (e : PyErr)
deriving DecidableEq, Repr

def ConnectResult.isRaised : ConnectResult → Bool
  | .raised _ => true
  | _ => false

def jira_auth_get_connect (cfg : JiraConfig) (transport : TransportOutcome) :
    ConnectResult :=
  match cfg.server, cfg.user, cfg.apikey with
  | some _, some _, some _ =>
    match transport with
    | .success status text =>
      if 400 ≤ status ∧ status < 600 then
        ConnectResult.errValue .httpError
      else
        ConnectResult.resp status text
    | .exn => ConnectResult.errValue .otherError
  | _, _, _ => ConnectResult.raised .typeError

/-- C3 counterexample: with the user credential absent (`os.environ.get`
returned `None`), the very first call raises a `TypeError` out of
`jira_auth_get_connect` — it neither returns a response nor an error value,
and no authentication failure is ever produced. -/
theorem c3_counterexample :
    jira_auth_get_connect ⟨none, some "k", some "s"⟩ (.success 200 "ok") =
      ConnectResult.raised .typeError ∧
    (jira_auth_get_connect ⟨none, some "k", some "s"⟩ (.success 200 "ok")).isRaised = true := by
  constructor
  · rfl
  · rfl

/-- C3 (amended): when all three configuration values are present, the
request client returns either a successful response object or an error value
for every transport outcome and never raises; when any configuration value is
absent, the call instead raises a `TypeError` past the boundary (the failure
is not surfaced as an authentication failure on the request). -/
theorem c3_connect_no_raise (cfg : JiraConfig) (t : TransportOutcome) :
    (cfg.user.isSome → cfg.apikey.isSome → cfg.server.isSome →
      (∃ s txt, jira_auth_get_connect cfg t = ConnectResult.resp s txt) ∨
      (∃ e, jira_auth_get_connect cfg t = ConnectResult.errValue e)) ∧
    ((cfg.user.isNone ∨ cfg.apikey.isNone ∨ cfg.server.isNone) →
      jira_auth_get_connect cfg t = ConnectResult.raised .typeError) := by
  obtain ⟨u, k, s⟩ := cfg
  constructor
  · intro hu hk hs
    obtain ⟨u, rfl⟩ := Option.isSome_iff_exists.mp hu
    obtain ⟨k, rfl⟩ := Option.isSome_iff_exists.mp hk
    obtain ⟨s, rfl⟩ := Option.isSome_iff_exists.mp hs
    cases t with
    | success status text =>
      by_cases hst : 400 ≤ status ∧ status < 600
      · right
        exact ⟨.httpError, by simp [jira_auth_get_connect, hst]⟩
      · left
        exact ⟨status, text, by simp [jira_auth_get_connect, hst]⟩
    | exn => exact Or.inr ⟨.otherError, rfl⟩
  · intro habs
    cases u with
    | none => cases s <;> cases k <;> rfl
    | some u =>
      cases k with
      | none => cases s <;> rfl
      | some k =>
        cases s with
        | none => rfl
        | some s => simp at habs

theorem c3_connect_no_raise_witness :
    ((∃ s txt, jira_auth_get_connect ⟨some "u", some "k", some "srv"⟩ (.success 503 "err") =
        ConnectResult.resp s txt) ∨
     (∃ e, jira_auth_get_connect ⟨some "u", some "k", some "srv"⟩ (.success 503 "err") =
        ConnectResult.errValue e)) ∧
    jira_auth_get_connect ⟨some "u", none, some "srv"⟩ (.success 200 "ok") =
      ConnectResult.raised .typeError :=
  ⟨(c3_connect_no_raise ⟨some "u", some "k", some "srv"⟩ (.success 503 "err")).1
      (by decide) (by decide) (by decide),
   (c3_connect_no_raise ⟨some "u", none, some "srv"⟩ (.success 200 "ok")).2
      (Or.inr (Or.inl (by decide)))⟩

/-! ## Pagination in the presence of request-client errors (C2)

Per request, the client hands the loop either a successful response whose
named JSON array holds some records, a returned `requests.exceptions.HTTPError`
value, or a returned value of some other exception class
(e.g. `ConnectionError`). -/

inductive PageResult (α : Type) where
  | ok (records : List α)
  | httpError
  | otherError
deriving DecidableEq, Repr

/-- The loop of `jira_get_issues`, `jira_get_all_projects` and
`jira_get_boards`: NO check on the response.  When the client returned an
exception value, `json.loads(response.text)` evaluates `.text` on an
exception object and raises `AttributeError`. -/
def paginateNoCheck {α : Type} (page : Nat → PageResult α) (N : Nat) :
    Nat → Nat → List α → Option (Except PyErr (List α))
  | 0, _, _ => none
  | fuel+1, start, acc =>
    match page start with
    | .ok blk =>
      if blk.isEmpty then some (.ok (acc ++ blk))
      else paginateNoCheck page N fuel (start + N) (acc ++ blk)
    | .httpError => some (.error .attributeError)
    | .otherError => some (.error .attributeError)

/-- The loop of `jira_get_sprints`, `jira_get_backlog_issues` and
`jira_get_sprint_issues`: guarded by
`if type(response) is not requests.exceptions.HTTPError`.  An exact
`HTTPError` value breaks out, silently returning the accumulated records; any
OTHER exception value passes the guard and `.text` raises `AttributeError`. -/
def paginateBreak {α : Type} (page : Nat → PageResult α) (N : Nat) :
    Nat → Nat → List α → Option (Except PyErr (List α))
  | 0, _, _ => none
  | fuel+1, start, acc =>
    match page start with
    | .ok blk =>
      if blk.isEmpty then some (.ok (acc ++ blk))
      else paginateBreak page N fuel (start + N) (acc ++ blk)
    | .httpError => some (.ok acc)
    | .otherError => some (.error .attributeError)

/-- C2 counterexample: in `jira_get_issues`, an HTTP error value at the very
first request does NOT yield a silent partial result `[]`; the loop raises an
`AttributeError` (`response.text` on the exception object). -/
theorem c2_counterexample :
    paginateNoCheck (fun _ => PageResult.httpError) 100 1 0 ([] : List Unit) =
      some (.error .attributeError) ∧
    some (Except.error PyErr.attributeError) ≠
      some (Except.ok ([] : List Unit)) := by
  constructor
  · rfl
  · intro hcon
    injection hcon with hcon
    exact Except.noConfusion hcon

/-- C2 (amended): only `jira_get_sprints` / `jira_get_backlog_issues` /
`jira_get_sprint_issues` stop silently, and only on an exact
`requests.exceptions.HTTPError` value: the loop returns the records
accumulated so far with no error surfaced.  A client error value of any other
class there, and ANY client error value in `jira_get_issues` /
`jira_get_all_projects` / `jira_get_boards`, instead raises an
`AttributeError` out of the fetcher. -/
theorem c2_error_stop_behavior {α : Type} (page : Nat → PageResult α)
    (N fuel start : Nat) (acc : List α) :
    (page start = .httpError →
      paginateBreak page N (fuel + 1) start acc = some (.ok acc) ∧
      paginateNoCheck page N (fuel + 1) start acc = some (.error .attributeError)) ∧
    (page start = .otherError →
      paginateBreak page N (fuel + 1) start acc = some (.error .attributeError) ∧
      paginateNoCheck page N (fuel + 1) start acc = some (.error .attributeError)) := by
  constructor
  · intro h
    constructor
    · simp only [paginateBreak, h]
    · simp only [paginateNoCheck, h]
  · intro h
    constructor
    · simp only [paginateBreak, h]
    · simp only [paginateNoCheck, h]

theorem c2_error_stop_behavior_witness :
    (paginateBreak (fun k => if k = 0 then PageResult.ok [7] else .httpError) 100 3 100 [7] =
      some (.ok [7]) ∧
     paginateNoCheck (fun k => if k = 0 then PageResult.ok [7] else .httpError) 100 3 100 [7] =
      some (.error .attributeError)) :=
  (c2_error_stop_behavior (fun k => if k = 0 then PageResult.ok [7] else .httpError)
    100 2 100 [7]).1 (by decide)

/-! ## Color translation (COLOR_DICT, applied via `COLOR_DICT.get(x, 'white')`) -/

def COLOR_DICT : List (String × String) :=
  [("purple", "purple"),
   ("dark_blue", "darkblue"),
   ("yellow", "orange"),
   ("grey", "grey"),
   ("dark_purple", "purple"),
   ("blue", "blue"),
   ("dark_orange", "orange"),
   ("dark_yellow", "gold"),
   ("blue-gray", "dodgerblue"),
   ("green", "green")]

/-- `lambda x: COLOR_DICT.get(x, 'white')`; `none` models a missing (NaN)
cell, which is not a dictionary key and so also falls back to `"white"`. -/
def translateColor (x : Option String) : String :=
  match x with
  | none => "white"
  | some s => (COLOR_DICT.lookup s).getD "white"

/-- C9: color translation is pure and total — each of the ten recognized
keywords maps to its fixed display color, and every other input, including
the empty string and a missing value, maps to `"white"`. -/
theorem c9_color_translation_total :
    translateColor (some "purple") = "purple" ∧
    translateColor (some "dark_blue") = "darkblue" ∧
    translateColor (some "yellow") = "orange" ∧
    translateColor (some "grey") = "grey" ∧
    translateColor (some "dark_purple") = "purple" ∧
    translateColor (some "blue") = "blue" ∧
    translateColor (some "dark_orange") = "orange" ∧
    translateColor (some "dark_yellow") = "gold" ∧
    translateColor (some "blue-gray") = "dodgerblue" ∧
    translateColor (some "green") = "green" ∧
    translateColor none = "white" ∧
    translateColor (some "") = "white" ∧
    ∀ s : String, s ∉ COLOR_DICT.map Prod.fst → translateColor (some s) = "white" := by
  refine ⟨rfl, rfl, rfl, rfl, rfl, rfl, rfl, rfl, rfl, rfl, rfl, rfl, ?_⟩
  intro s hs
  simp only [COLOR_DICT, List.map_cons, List.map_nil, List.mem_cons,
    List.not_mem_nil, or_false, not_or] at hs
  obtain ⟨h1, h2, h3, h4, h5, h6, h7, h8, h9, h10⟩ := hs
  simp [translateColor, COLOR_DICT, List.lookup,
    beq_eq_false_iff_ne.mpr h1, beq_eq_false_iff_ne.mpr h2,
    beq_eq_false_iff_ne.mpr h3, beq_eq_false_iff_ne.mpr h4,
    beq_eq_false_iff_ne.mpr h5, beq_eq_false_iff_ne.mpr h6,
    beq_eq_false_iff_ne.mpr h7, beq_eq_false_iff_ne.mpr h8,
    beq_eq_false_iff_ne.mpr h9, beq_eq_false_iff_ne.mpr h10]

theorem c9_color_translation_total_witness :
    translateColor (some "magenta") = "white" :=
  c9_color_translation_total.2.2.2.2.2.2.2.2.2.2.2.2 "magenta" (by decide)

/-! ## Field projector/renamer (C6, C7)

Source cell:

    df_issues_enhanced = df_issues[df_issues.columns[df_issues.columns.isin(RELEVANT_FIELDS)]]
    df_issues_enhanced.rename(columns=COLUMN_NAME_DICT, inplace=True)

A flattened row is modelled as an ordered association list of
(column name, value); `pandas.rename` relabels columns and keeps duplicate
labels as duplicates.  The source lists are reproduced verbatim: the
whitelist repeats `fields.status.statusCategory.colorName`, and the rename
dictionary repeats that key with the identical value (a Python dict literal
keeps the last duplicate entry, which here equals the first, so first-match
lookup coincides with Python dict lookup). -/

def RELEVANT_FIELDS : List String :=
  ["fields.project.name",
   "fields.project.id",
   "id",
   "key",
   "fields.summary",
   "fields.description",
   "fields.issuetype.name",
   "fields.customfield_10011",
   "fields.customfield_10017",
   "fields.created",
   "fields.status.name",
   "fields.status.statusCategory.key",
   "fields.status.statusCategory.name",
   "fields.status.statusCategory.colorName",
   "fields.priority.name",
   "fields.customfield_10026",
   "fields.creator.displayName",
   "fields.assignee.displayName",
   "fields.reporter.displayName",
   "fields.issuetype.subtask",
   "fields.fixVersions",
   "fields.parent.id",
   "fields.parent.key",
   "fields.parent.fields.summary",
   "fields.parent.fields.status.name",
   "fields.parent.fields.status.statusCategory.key",
   "fields.parent.fields.status.statusCategory.name",
   "fields.parent.fields.status.statusCategory.colorName",
   "fields.parent.fields.priority.name",
   "fields.parent.fields.issuetype.name",
   "fields.parent.fields.issuetype.subtask",
   "fields.aggregatetimespent",
   "fields.resolution",
   "fields.resolutiondate",
   "fields.lastViewed",
   "fields.labels",
   "fields.aggregatetimeoriginalestimate",
   "fields.aggregatetimeestimate",
   "fields.timeestimate",
   "fields.updated",
   "fields.aggregateprogress.progress",
   "fields.aggregateprogress.total",
   "fields.aggregateprogress.percent",
   "fields.progress.percent",
   "fields.timeoriginalestimate",
   "fields.duedate",
   "fields.progress.progress",
   "fields.progress.total",
   "fields.resolution.name",
   "fields.statuscategorychangedate",
   "fields.status.statusCategory.colorName"]

def COLUMN_NAME_DICT : List (String × String) :=
  [("fields.project.name", "project_name"),
   ("fields.project.id", "project_id"),
   ("id", "issue_id"),
   ("key", "issue_key"),
   ("fields.summary", "summary"),
   ("fields.description", "description"),
   ("fields.issuetype.name", "issuetype"),
   ("fields.customfield_10011", "epic_name"),
   ("fields.customfield_10017", "epic_color"),
   ("fields.created", "created"),
   ("fields.status.name", "status"),
   ("fields.status.statusCategory.key", "status_cat_key"),
   ("fields.status.statusCategory.name", "status_cat_name"),
   ("fields.status.statusCategory.colorName", "status_cat_color"),
   ("fields.priority.name", "prio"),
   ("fields.customfield_10026", "storypoints"),
   ("fields.creator.displayName", "creator"),
   ("fields.assignee.displayName", "assignee"),
   ("fields.reporter.displayName", "reporter"),
   ("fields.issuetype.subtask", "is_subtask"),
   ("fields.fixVersions", "fix_versions"),
   ("fields.parent.id", "parent_id"),
   ("fields.parent.key", "parent_key"),
   ("fields.parent.fields.summary", "parent_summary"),
   ("fields.parent.fields.status.name", "parent_status"),
   ("fields.parent.fields.status.statusCategory.key", "parent_status_cat_key"),
   ("fields.parent.fields.status.statusCategory.name", "parent_status_cat"),
   ("fields.parent.fields.status.statusCategory.colorName", "parent_status_cat_color"),
   ("fields.parent.fields.priority.name", "parent_prio"),
   ("fields.parent.fields.issuetype.name", "parent_issuetype"),
   ("fields.parent.fields.issuetype.subtask", "parent_is_subtask"),
   ("fields.aggregatetimespent", "aggregatetimespent"),
   ("fields.resolution", "resolution"),
   ("fields.resolutiondate", "resolution_date"),
   ("fields.lastViewed", "last_viewed"),
   ("fields.labels", "labels"),
   ("fields.aggregatetimeoriginalestimate", "aggregatetimeoriginalestimate"),
   ("fields.aggregatetimeestimate", "aggregatetimeestimate"),
   ("fields.timeestimate", "timeestimate"),
   ("fields.updated", "updated"),
   ("fields.aggregateprogress.progress", "aggregateprogress"),
   ("fields.aggregateprogress.total", "aggregateprogress_total"),
   ("fields.aggregateprogress.percent", "aggregateprogress_percent"),
   ("fields.progress.percent", "progress_percent"),
   ("fields.timeoriginalestimate", "timeoriginalestimate"),
   ("fields.duedate", "duedate"),
   ("fields.progress.progress", "progress"),
   ("fields.progress.total", "progress_total"),
   ("fields.resolution.name", "resolution"),
   ("fields.statuscategorychangedate", "status_cat_changedate"),
   ("fields.status.statusCategory.colorName", "status_cat_color")]


abbrev Row := List (String × String)

/-- `pandas.DataFrame.rename`: a column named `n` becomes `COLUMN_NAME_DICT[n]`
when `n` is a key of the dictionary and keeps its name otherwise. -/
def renameCol (n : String) : String := (COLUMN_NAME_DICT.lookup n).getD n

/-- The whitelist-retain step `df[df.columns[df.columns.isin(RELEVANT_FIELDS)]]`. -/
def projectOnly (row : Row) : Row :=
  row.filter (fun p => RELEVANT_FIELDS.contains p.1)

/-- The full projection: retain whitelisted columns, then rename each. -/
def projectRename (row : Row) : Row :=
  (projectOnly row).map (fun p => (renameCol p.1, p.2))

/-- No renamed output column name is itself a whitelisted source column. -/
theorem rename_not_in_whitelist :
    ∀ n ∈ RELEVANT_FIELDS, RELEVANT_FIELDS.contains (renameCol n) = false := by
  have hall : RELEVANT_FIELDS.all
      (fun n => !(RELEVANT_FIELDS.contains (renameCol n))) = true := by decide
  intro n hn
  have h := List.all_eq_true.mp hall n hn
  simpa using h

/-- C6 counterexample: projecting and renaming the one-column table `id = 7`
yields the table `issue_id = 7`; applying the operation again drops
`issue_id` (not a whitelisted name) and yields the empty table, not the same
table. -/
theorem c6_counterexample :
    projectRename [("id", "7")] = [("issue_id", "7")] ∧
    projectRename (projectRename [("id", "7")]) = [] ∧
    ([] : Row) ≠ [("issue_id", "7")] := by
  refine ⟨by decide, by decide, by decide⟩

/-- C6 (amended): the whitelist-retain step alone is idempotent, but the
combined retain-then-rename operation is not: applied to any of its own
outputs it yields the empty table, because every renamed column name falls
outside the whitelist. -/
theorem c6_projection_idempotence (row : Row) :
    projectOnly (projectOnly row) = projectOnly row ∧
    projectRename (projectRename row) = [] := by
  constructor
  · rw [projectOnly, projectOnly, List.filter_filter]
    congr 1
    funext p
    rw [Bool.and_self]
  · rw [show projectRename (projectRename row) =
        (projectOnly (projectRename row)).map (fun p => (renameCol p.1, p.2)) from rfl]
    rw [List.map_eq_nil_iff, projectOnly, List.filter_eq_nil_iff]
    intro p hp
    obtain ⟨q, hq, rfl⟩ := List.mem_map.mp hp
    have hqRF : q.1 ∈ RELEVANT_FIELDS := by
      have h2 := (List.mem_filter.mp hq).2
      simpa [List.contains] using h2
    have hnot := rename_not_in_whitelist q.1 hqRF
    simp only [List.contains, List.elem_eq_mem, decide_eq_false_iff_not] at hnot
    simpa using hnot

theorem c6_projection_idempotence_witness :
    projectOnly (projectOnly [("id", "7"), ("x", "1")]) =
      projectOnly [("id", "7"), ("x", "1")] ∧
    projectRename (projectRename [("id", "7"), ("x", "1")]) = [] :=
  c6_projection_idempotence [("id", "7"), ("x", "1")]

/-- A whitelisted column renames to `resolution` exactly when it is one of the
two resolution source fields. -/
theorem rename_eq_resolution :
    ∀ n ∈ RELEVANT_FIELDS,
      (renameCol n == "resolution") =
        (n == "fields.resolution" || n == "fields.resolution.name") := by
  have hall : RELEVANT_FIELDS.all
      (fun n => (renameCol n == "resolution") ==
        (n == "fields.resolution" || n == "fields.resolution.name")) = true := by decide
  intro n hn
  have h := List.all_eq_true.mp hall n hn
  simpa using h

/-- C7 counterexample: with both `fields.resolution` and
`fields.resolution.name` present, the projector/renamer output contains TWO
columns named `resolution` — one per source field — not exactly one. -/
theorem c7_counterexample :
    projectRename [("fields.resolution", "Done"), ("fields.resolution.name", "Fixed")] =
      [("resolution", "Done"), ("resolution", "Fixed")] ∧
    List.countP (fun p => p.1 == "resolution")
      (projectRename [("fields.resolution", "Done"), ("fields.resolution.name", "Fixed")]) ≠ 1 := by
  refine ⟨by decide, by decide⟩

/-- C7 (amended): `pandas.rename` relabels without merging, so the output
carries one `resolution` column per resolution source column present in the
input (two when both are present, each keeping its own value, in input
order); no single last-applied mapping wins. -/
theorem c7_resolution_two_columns (row : Row) (a b : String) :
    List.countP (fun p => p.1 == "resolution") (projectRename row) =
      List.countP (fun p => p.1 == "fields.resolution" ||
        p.1 == "fields.resolution.name") row ∧
    projectRename [("fields.resolution", a), ("fields.resolution.name", b)] =
      [("resolution", a), ("resolution", b)] := by
  constructor
  · rw [projectRename, projectOnly, List.countP_map, List.countP_filter]
    congr 1
    funext p
    by_cases hmem : p.1 ∈ RELEVANT_FIELDS
    · have heq := rename_eq_resolution p.1 hmem
      have hc : RELEVANT_FIELDS.contains p.1 = true := by
        simpa [List.contains] using hmem
      simp only [Function.comp, hc, Bool.and_true, heq]
    · have hc : RELEVANT_FIELDS.contains p.1 = false := by
        simpa [List.contains] using hmem
      have h1 : p.1 ≠ "fields.resolution" := by
        intro hcon
        exact hmem (hcon ▸ (by decide : "fields.resolution" ∈ RELEVANT_FIELDS))
      have h2 : p.1 ≠ "fields.resolution.name" := by
        intro hcon
        exact hmem (hcon ▸ (by decide : "fields.resolution.name" ∈ RELEVANT_FIELDS))
      simp only [Function.comp, hc, Bool.and_false,
        beq_eq_false_iff_ne.mpr h1, beq_eq_false_iff_ne.mpr h2, Bool.or_self]
  · rfl

theorem c7_resolution_two_columns_witness :
    List.countP (fun p => p.1 == "resolution")
      (projectRename [("fields.resolution", "Done"), ("id", "3")]) =
      List.countP (fun p => p.1 == "fields.resolution" ||
        p.1 == "fields.resolution.name") [("fields.resolution", "Done"), ("id", "3")] ∧
    projectRename [("fields.resolution", "x"), ("fields.resolution.name", "y")] =
      [("resolution", "x"), ("resolution", "y")] :=
  c7_resolution_two_columns [("fields.resolution", "Done"), ("id", "3")] "x" "y"

/-! ## Epic backfill (C4)

Source cell:

    df_epics = df_issues_enhanced[['issue_id','epic_name','epic_color']]
    df_issues_enhanced = pd.merge(df_issues_enhanced, df_epics, how='left',
                                  left_on='parent_id', right_on='issue_id')
    df_issues_enhanced.loc[df_issues_enhanced['epic_name_x'].isnull(),'epic_name_x'] = df_issues_enhanced['epic_name_y']
    df_issues_enhanced.loc[df_issues_enhanced['epic_color_x'].isnull(),'epic_color_x'] = df_issues_enhanced['epic_color_y']
    df_issues_enhanced.epic_name = df_issues_enhanced.epic_name.fillna('No Epic')

The left merge emits, per issue row, one output row per parent row whose
`issue_id` equals the issue's `parent_id`, and a single right-null-extended
row when there is no match (a null `parent_id` matches nothing). -/

structure IssueRow where
  issue_id : String
  parent_id : Option String
  epic_name : Option String
  epic_color : Option String
deriving DecidableEq, Repr

/-- The two `.loc[... .isnull(), ...] = ..._y` substitutions applied to one
merged row: an own value is kept, a null one is replaced by the matched
parent's value (null again if the merge found no match). -/
def mergeEpic (r : IssueRow) (p : Option IssueRow) : IssueRow :=
  { r with
    epic_name :=
      match r.epic_name with
      | some v => some v
      | none => p.bind (fun q => q.epic_name),
    epic_color :=
      match r.epic_color with
      | some v => some v
      | none => p.bind (fun q => q.epic_color) }

/-- `epic_name.fillna('No Epic')`. -/
def fillNoEpic (r : IssueRow) : IssueRow :=
  { r with epic_name := some (r.epic_name.getD "No Epic") }

/-- The parent rows the merge matches for issue `r`. -/
def epicMatches (tbl : List IssueRow) (r : IssueRow) : List IssueRow :=
  tbl.filter (fun q => r.parent_id == some q.issue_id)

/-- The output rows the epic-backfill pipeline derives from one issue row. -/
def backfillRow (tbl : List IssueRow) (r : IssueRow) : List IssueRow :=
  (if (epicMatches tbl r).isEmpty then [mergeEpic r none]
   else (epicMatches tbl r).map (fun q => mergeEpic r (some q))).map fillNoEpic

/-- The whole backfilled table. -/
def epicBackfill (tbl : List IssueRow) : List IssueRow :=
  tbl.flatMap (backfillRow tbl)

theorem backfillRow_mem (tbl : List IssueRow) (r s : IssueRow)
    (hs : s ∈ backfillRow tbl r) : ∃ po, s = fillNoEpic (mergeEpic r po) := by
  rw [backfillRow] at hs
  rcases List.mem_map.mp hs with ⟨t, ht, rfl⟩
  by_cases hemp : (epicMatches tbl r).isEmpty
  · rw [if_pos hemp] at ht
    simp only [List.mem_singleton] at ht
    exact ⟨none, by rw [ht]⟩
  · rw [if_neg hemp] at ht
    rcases List.mem_map.mp ht with ⟨q, hq, rfl⟩
    exact ⟨some q, rfl⟩

/-- C4: after epic backfill, an issue's own non-null `epic_name` is never
overwritten; a null `epic_name` with a unique parent match carrying
`epic_name = "Feature X"` becomes `"Feature X"`; and with no parent match and
no own epic name it becomes the literal `"No Epic"`. -/
theorem c4_epic_backfill (tbl : List IssueRow) (r : IssueRow) :
    (∀ v, r.epic_name = some v → ∀ s ∈ backfillRow tbl r, s.epic_name = some v) ∧
    (∀ p, r.epic_name = none → epicMatches tbl r = [p] →
      p.epic_name = some "Feature X" →
      (backfillRow tbl r).map (fun s => s.epic_name) = [some "Feature X"]) ∧
    (r.epic_name = none → epicMatches tbl r = [] →
      (backfillRow tbl r).map (fun s => s.epic_name) = [some "No Epic"]) := by
  refine ⟨?_, ?_, ?_⟩
  · intro v hv s hs
    obtain ⟨po, rfl⟩ := backfillRow_mem tbl r s hs
    simp [fillNoEpic, mergeEpic, hv]
  · intro p hnone hm hp
    have hemp : (epicMatches tbl r).isEmpty = false := by
      rw [hm]; rfl
    rw [backfillRow, hemp]
    simp [hm, fillNoEpic, mergeEpic, hnone, hp]
  · intro hnone hm
    have hemp : (epicMatches tbl r).isEmpty = true := by
      rw [hm]; rfl
    rw [backfillRow, hemp]
    simp [fillNoEpic, mergeEpic, hnone]

theorem c4_epic_backfill_witness :
    (backfillRow
        [⟨"1", none, some "Feature X", some "purple"⟩,
         ⟨"2", some "1", none, none⟩]
        ⟨"2", some "1", none, none⟩).map (fun s => s.epic_name) =
      [some "Feature X"] ∧
    (fillNoEpic (mergeEpic ⟨"1", none, some "Feature X", some "purple"⟩ none)).epic_name =
      some "Feature X" ∧
    (backfillRow ([] : List IssueRow) ⟨"9", none, none, none⟩).map
        (fun s => s.epic_name) = [some "No Epic"] := by
  refine ⟨?_, ?_, ?_⟩
  · exact (c4_epic_backfill
      [⟨"1", none, some "Feature X", some "purple"⟩, ⟨"2", some "1", none, none⟩]
      ⟨"2", some "1", none, none⟩).2.1
      ⟨"1", none, some "Feature X", some "purple"⟩ rfl (by decide) rfl
  · exact (c4_epic_backfill
      [⟨"1", none, some "Feature X", some "purple"⟩, ⟨"2", some "1", none, none⟩]
      ⟨"1", none, some "Feature X", some "purple"⟩).1 "Feature X" rfl
      (fillNoEpic (mergeEpic ⟨"1", none, some "Feature X", some "purple"⟩ none))
      (by decide)
  · exact (c4_epic_backfill ([] : List IssueRow) ⟨"9", none, none, none⟩).2.2 rfl rfl

/-! ## Aggregator (C5)

Source cell:

    df_issues_per_type = df_issues_enhanced.query("issuetype != 'Epic'")
        [['issuetype','status_cat_name','storypoints','prio']]
        .groupby(['issuetype','status_cat_name','prio'])['storypoints']
        .agg(storypoints='sum', issue_count='count').reset_index()

pandas semantics: `sum` skips nulls (an all-null or empty selection sums to
0) and `count` counts the NON-NULL storypoint values of the group. -/

structure IssueRec where
  issuetype : String
  status_cat_name : String
  prio : String
  storypoints : Option ℚ
deriving DecidableEq, Repr

/-- One group `k` of `groupby(keys)['storypoints'].agg(storypoints='sum',
issue_count='count')`: the pair (sum of non-null storypoints, number of
non-null storypoints). -/
def groupAgg {κ : Type} [DecidableEq κ] (key : IssueRec → κ) (rows : List IssueRec)
    (k : κ) : ℚ × Nat :=
  ((((rows.filter (fun r => decide (key r = k))).filterMap
      (fun r => r.storypoints))).sum,
   ((rows.filter (fun r => decide (key r = k))).filterMap
      (fun r => r.storypoints)).length)

/-- The aggregation applied after `query("issuetype != 'Epic'")`. -/
def dfIssuesPerGroup {κ : Type} [DecidableEq κ] (key : IssueRec → κ)
    (rows : List IssueRec) (k : κ) : ℚ × Nat :=
  groupAgg key (rows.filter (fun r => r.issuetype != "Epic")) k

/-- The concrete table of the claim, plus an Epic row that the query excludes. -/
def exampleRecs : List IssueRec :=
  [⟨"Task", "Done", "High", some 3⟩,
   ⟨"Task", "Done", "Low", some 2⟩,
   ⟨"Bug", "Done", "High", some 1⟩,
   ⟨"Epic", "Done", "High", some 99⟩]

/-- C5 counterexample: a single (Task, Done) issue with null storypoints
aggregates to sum 0 and issue count 0 — the null issue is NOT counted,
contradicting the claim that it would still be counted (count 1). -/
theorem c5_counterexample :
    dfIssuesPerGroup (fun r => (r.issuetype, r.status_cat_name))
      [⟨"Task", "Done", "High", none⟩] ("Task", "Done") = (0, 0) ∧
    ((0 : ℚ), (0 : Nat)) ≠ ((0 : ℚ), (1 : Nat)) := by
  constructor
  · simp +decide [dfIssuesPerGroup, groupAgg, List.filter_cons, List.filterMap_cons]
  · intro hcon
    exact Nat.zero_ne_one (congrArg Prod.snd hcon)

/-- C5 (amended): per group the aggregation sums storypoints with nulls
contributing zero, but the issue count counts only issues with non-null
storypoints (a null-storypoints row changes neither component); on the
claim's concrete table, grouping by (type, status) yields (Task, Done) ↦
(5, 2) and (Bug, Done) ↦ (1, 1), and the Epic row is excluded. -/
theorem c5_aggregation (rows : List IssueRec) (r : IssueRec)
    (k : String × String) (hnull : r.storypoints = none) :
    groupAgg (fun q => (q.issuetype, q.status_cat_name)) (rows ++ [r]) k =
      groupAgg (fun q => (q.issuetype, q.status_cat_name)) rows k ∧
    dfIssuesPerGroup (fun q => (q.issuetype, q.status_cat_name)) exampleRecs
      ("Task", "Done") = (5, 2) ∧
    dfIssuesPerGroup (fun q => (q.issuetype, q.status_cat_name)) exampleRecs
      ("Bug", "Done") = (1, 1) ∧
    dfIssuesPerGroup (fun q => (q.issuetype, q.status_cat_name)) exampleRecs
      ("Epic", "Done") = (0, 0) := by
  refine ⟨?_,
    by simp +decide [dfIssuesPerGroup, groupAgg, exampleRecs, List.filter_cons,
        List.filterMap_cons]
       norm_num,
    by simp +decide [dfIssuesPerGroup, groupAgg, exampleRecs, List.filter_cons,
        List.filterMap_cons],
    by simp +decide [dfIssuesPerGroup, groupAgg, exampleRecs, List.filter_cons,
        List.filterMap_cons]⟩
  simp only [groupAgg, List.filter_append, List.filterMap_append]
  by_cases hk : (r.issuetype, r.status_cat_name) = k
  · simp [hk, hnull]
  · simp [hk]

theorem c5_aggregation_witness :
    groupAgg (fun q => (q.issuetype, q.status_cat_name))
      (exampleRecs ++ [⟨"Task", "Done", "High", none⟩]) ("Task", "Done") =
      groupAgg (fun q => (q.issuetype, q.status_cat_name)) exampleRecs
        ("Task", "Done") ∧
    dfIssuesPerGroup (fun q => (q.issuetype, q.status_cat_name)) exampleRecs
      ("Task", "Done") = (5, 2) ∧
    dfIssuesPerGroup (fun q => (q.issuetype, q.status_cat_name)) exampleRecs
      ("Bug", "Done") = (1, 1) ∧
    dfIssuesPerGroup (fun q => (q.issuetype, q.status_cat_name)) exampleRecs
      ("Epic", "Done") = (0, 0) :=
  c5_aggregation exampleRecs ⟨"Task", "Done", "High", none⟩ ("Task", "Done") rfl

/-! ## Board-issue assembly (jira_get_board_issues, C10)

Source:

    df_all_sprints = jira_get_sprints(board_id=board_id)
    sprint_ids = df_all_sprints.id.to_list()
    issue_rows = []
    for sprint_id in sprint_ids:
        df_issues = jira_get_sprint_issues(sprint_id=sprint_id)[['id','key',
            'fields.project.name','fields.project.id','fields.issuetype.name',
            'fields.status.name','fields.status.statusCategory.name',
            'fields.priority.name','fields.customfield_10026']]
        df_issues['sprint'] = sprint_id
        issue_rows.extend(df_issues.values.tolist())
    df_board_issues = pd.DataFrame(issue_rows)
    df_board_issues.columns = [... 10 names ...]
    ... pd.merge(..., how='left', left_on='sprint_id', right_on='id') ...

A fetched issue table is a `DF`: explicit column names plus rows of
(column, nullable value) cells.  A sprint with no issues (or whose fetch
aborted on its first request) yields the empty `DF ⟨[], []⟩`, exactly like
`pd.json_normalize([])`. -/

structure DF where
  cols : List String
  rows : List (List (String × Option String))
deriving DecidableEq, Repr

def boardIssueCols : List String :=
  ["id", "key", "fields.project.name", "fields.project.id",
   "fields.issuetype.name", "fields.status.name",
   "fields.status.statusCategory.name", "fields.priority.name",
   "fields.customfield_10026"]

/-- `df[[c1, ..., cn]]`: `KeyError` unless every requested column exists. -/
def selectCols (df : DF) (cs : List String) : Except PyErr DF :=
  if cs.all (fun c => df.cols.contains c) then
    Except.ok { cols := cs,
                rows := df.rows.map (fun r => cs.map (fun c => (c, (r.lookup c).getD none))) }
  else Except.error .keyError

/-- One row of the sprint metadata table returned by `jira_get_sprints`
(the `self` and `goal` columns, dropped unread by the code, are omitted). -/
structure SprintMeta where
  id : Nat
  name : String
  state : String
  startDate : Option String
  endDate : Option String
  completeDate : Option String
  originBoardId : Nat
deriving DecidableEq, Repr

/-- The `for sprint_id in sprint_ids:` loop: select the nine columns of each
sprint's fetched issue table (a `KeyError` escapes at once), append the
sprint id to each row as the `sprint` column, and concatenate the rows. -/
def collectSprintRows (fetch : Nat → DF) :
    List Nat → Except PyErr (List (List (Option String)))
  | [] => Except.ok []
  | sid :: rest =>
    match selectCols (fetch sid) boardIssueCols with
    | .error e => .error e
    | .ok df =>
      match collectSprintRows fetch rest with
      | .error e => .error e
      | .ok more =>
        .ok ((df.rows.map (fun r => r.map (fun p => p.2) ++ [some (toString sid)])) ++ more)

def boardIssueRenamed : List String :=
  ["issue_id", "issue_key", "project_name", "project_id", "issuetype",
   "status", "status_cat_name", "prio", "storypoints", "sprint_id"]

def sprintOutCols : List String :=
  ["sprint_name", "sprint_state", "sprint_start_date", "sprint_end_date",
   "sprint_complete_date", "board_id"]

def sprintAttrs (m : SprintMeta) : List (Option String) :=
  [some m.name, some m.state, m.startDate, m.endDate, m.completeDate,
   some (toString m.originBoardId)]

/-- `pd.merge(..., how='left', left_on='sprint_id', right_on='id')` for one
assembled row (whose last value is the sprint tag), followed by the column
drops and renames: matching sprint rows extend the row, a missing match
leaves the sprint attributes null. -/
def leftJoinSprints (sprints : List SprintMeta) (r : List (Option String)) :
    List (List (Option String)) :=
  match sprints.filter (fun m => r.getLast? == some (some (toString m.id))) with
  | [] => [r ++ [none, none, none, none, none, none]]
  | ms => ms.map (fun m => r ++ sprintAttrs m)

def jira_get_board_issues (sprints : List SprintMeta) (fetch : Nat → DF) :
    Except PyErr DF :=
  match collectSprintRows fetch (sprints.map (fun m => m.id)) with
  | .error e => .error e
  | .ok issueRows =>
    if issueRows.isEmpty then
      Except.error .valueError
    else
      Except.ok { cols := boardIssueRenamed ++ sprintOutCols,
                  rows := (issueRows.flatMap (leftJoinSprints sprints)).map
                    (fun vals => (boardIssueRenamed ++ sprintOutCols).zip vals) }

theorem collectSprintRows_ok {fetch : Nat → DF} :
    ∀ {ids : List Nat} {rows}, collectSprintRows fetch ids = .ok rows →
      ∀ sid ∈ ids, ∃ df, selectCols (fetch sid) boardIssueCols = .ok df := by
  intro ids
  induction ids with
  | nil =>
    intro rows h sid hsid
    exact absurd hsid (List.not_mem_nil sid)
  | cons a rest ih =>
    intro rows h sid hsid
    rw [collectSprintRows] at h
    cases hsel : selectCols (fetch a) boardIssueCols with
    | error e =>
      rw [hsel] at h
      exact Except.noConfusion h
    | ok df =>
      rw [hsel] at h
      cases hrest : collectSprintRows fetch rest with
      | error e =>
        rw [hrest] at h
        exact Except.noConfusion h
      | ok more =>
        rcases List.mem_cons.mp hsid with rfl | hmem
        · exact ⟨df, hsel⟩
        · exact ih hrest sid hmem

/-- C10: if some sprint of the board yields the empty issue table (no rows,
no columns — a sprint with no issues, or whose fetch aborted on its first
request), `jira_get_board_issues` raises instead of returning a table; and
it returns a table only when every sprint's fetched issue table contains all
nine selected columns. -/
theorem c10_board_issue_selection (sprints : List SprintMeta) (fetch : Nat → DF) :
    ((∃ m ∈ sprints, fetch m.id = ⟨[], []⟩) →
      ∃ e, jira_get_board_issues sprints fetch = .error e) ∧
    (∀ t, jira_get_board_issues sprints fetch = .ok t →
      ∀ m ∈ sprints, ∀ c ∈ boardIssueCols, (fetch m.id).cols.contains c = true) := by
  constructor
  · rintro ⟨m, hm, hempty⟩
    cases hcol : collectSprintRows fetch (sprints.map (fun q => q.id)) with
    | error e =>
      exact ⟨e, by rw [jira_get_board_issues, hcol]⟩
    | ok issueRows =>
      exfalso
      obtain ⟨df, hdf⟩ := collectSprintRows_ok hcol m.id
        (List.mem_map_of_mem (fun q => q.id) hm)
      rw [hempty] at hdf
      rw [show selectCols ⟨[], []⟩ boardIssueCols = Except.error .keyError from rfl] at hdf
      exact Except.noConfusion hdf
  · intro t ht m hm c hc
    rw [jira_get_board_issues] at ht
    cases hcol : collectSprintRows fetch (sprints.map (fun q => q.id)) with
    | error e =>
      rw [hcol] at ht
      exact Except.noConfusion ht
    | ok issueRows =>
      obtain ⟨df, hdf⟩ := collectSprintRows_ok hcol m.id
        (List.mem_map_of_mem (fun q => q.id) hm)
      rw [selectCols] at hdf
      by_cases hall : boardIssueCols.all (fun c2 => (fetch m.id).cols.contains c2) = true
      · exact List.all_eq_true.mp hall c hc
      · rw [if_neg] at hdf
        · exact Except.noConfusion hdf
        · simpa using hall

def metaEx : SprintMeta :=
  ⟨1, "Sprint 1", "active", some "2023-01-01", some "2023-01-14", none, 7⟩

def dfEx : DF := ⟨boardIssueCols, [boardIssueCols.map (fun c => (c, some "v"))]⟩

theorem c10_board_issue_selection_witness :
    (∃ e, jira_get_board_issues [metaEx] (fun _ => DF.mk [] []) = .error e) ∧
    dfEx.cols.contains "id" = true := by
  constructor
  · exact (c10_board_issue_selection [metaEx] (fun _ => DF.mk [] [])).1
      ⟨metaEx, List.mem_singleton.mpr rfl, rfl⟩
  · exact (c10_board_issue_selection [metaEx] (fun _ => dfEx)).2 _ rfl metaEx
      (List.mem_singleton.mpr rfl) "id" (by decide)
